import Mathlib

/-!
Verification of the libp2p relay node (`libp2p_utils.go`, `node_service.go`):
a shallow embedding of its identity derivation, keypair persistence, node
bootstrap, inbound message filtering loop and outbound send handler, with
theorems settling the specified properties.
-/

namespace Relay

/-- A JSON value, as produced by Go's `json.Unmarshal` into
`map[string]interface{}` / `interface{}`: `null`, booleans, numbers,
strings, arrays and objects.  Objects are association lists of fields
(a decoded Go map has one entry per key). -/
inductive Json where
  | null : Json
  | bool : Bool → Json
  | num : Int → Json
  | str : String → Json
  | arr : List Json → Json
  | obj : List (String × Json) → Json

/-- Lookup of a key in a decoded object, returning `none` when absent
(a Go map access `m[k]` distinguishes presence via the value being `nil`). -/
def lookupJson : List (String × Json) → String → Option Json
  | [], _ => none
  | (k, v) :: rest, key => if k = key then some v else lookupJson rest key

/-- Go map indexing `m[k]` on `map[string]interface{}`: a missing key yields
the zero value `nil`, which `json.Marshal` renders as `null`. -/
def goIndex (m : List (String × Json)) (key : String) : Json :=
  (lookupJson m key).getD Json.null

/-- Comparison of a dynamic `interface{}` value with a Go `string`, as in
`payload["to"] != s.did`: equal exactly when the value is that string. -/
def Json.eqStr : Json → String → Bool
  | .str t, s => t == s
  | _, _ => false

/-- Escape of a single character inside a JSON string literal, following
`encoding/json` for the characters that occur in this system's data. -/
def escapeChar (c : Char) : String :=
  if c = '"' then "\\\""
  else if c = '\\' then "\\\\"
  else if c = '\n' then "\\n"
  else if c = '\t' then "\\t"
  else if c = '\r' then "\\r"
  else String.singleton c

/-- JSON string literal serialization: surrounding quotes plus escapes. -/
def serializeString (s : String) : String :=
  "\"" ++ String.join (s.toList.map escapeChar) ++ "\""

/-- Insertion of one already-serialized field into a key-ordered list:
`encoding/json` marshals Go maps with keys in ascending byte order. -/
def insertPair (p : String × String) : List (String × String) → List (String × String)
  | [] => [p]
  | q :: rest => if p.1 ≤ q.1 then p :: q :: rest else q :: insertPair p rest

/-- Sort of serialized fields by key (insertion sort). -/
def sortPairs : List (String × String) → List (String × String)
  | [] => []
  | p :: rest => insertPair p (sortPairs rest)

/-- Comma-joined rendering of the fields of a JSON object. -/
def joinPairs : List (String × String) → String
  | [] => ""
  | [(k, v)] => serializeString k ++ ":" ++ v
  | (k, v) :: p :: rest => serializeString k ++ ":" ++ v ++ "," ++ joinPairs (p :: rest)

/-- Comma-joined rendering of the elements of a JSON array. -/
def joinComma : List String → String
  | [] => ""
  | [x] => x
  | x :: y :: rest => x ++ "," ++ joinComma (y :: rest)

mutual

/-- Serialization of a JSON value to its wire bytes, following Go's
`json.Marshal` on values decoded from JSON: object keys are emitted in
ascending order, a missing value (`nil`) is `null`. -/
def serialize : Json → String
  | Json.null => "null"
  | Json.bool b => if b then "true" else "false"
  | Json.num n => toString n
  | Json.str s => serializeString s
  | Json.arr xs => "[" ++ joinComma (serializeElems xs) ++ "]"
  | Json.obj fs => "\x7b" ++ joinPairs (sortPairs (serializeFields fs)) ++ "\x7d"

/-- Serialization of each array element. -/
def serializeElems : List Json → List String
  | [] => []
  | x :: rest => serialize x :: serializeElems rest

/-- Serialization of each object field's value, keeping its key. -/
def serializeFields : List (String × Json) → List (String × String)
  | [] => []
  | (k, v) :: rest => (k, serialize v) :: serializeFields rest

end

/-! ## Inbound message loop (`handleIncomingMessages`, node_service.go) -/

/-- The data of one pubsub message as seen by `json.Unmarshal(msg.Data,
&payload)` with a `map[string]interface{}` target: either the bytes do not
decode to a JSON object (`malformed`), or they decode to the object
`payload`. -/
inductive MsgData where
  | malformed : MsgData
  | decoded : List (String × Json) → MsgData

/-- One HTTP POST issued to the tunnel collaborator: target URL and body
bytes, as in `http.Post(s.tunnelAPI, "application/json", buf)`. -/
structure TunnelPost where
  url : String
  body : String
deriving DecidableEq

/-- Whether an inbound message decodes to an object whose `to` field is this
node's identity — the condition under which `handleIncomingMessages` reaches
the forwarding step. -/
def isAddressedTo (did : String) : MsgData → Bool
  | .malformed => false
  | .decoded payload => (goIndex payload "to").eqStr did

/-- The tunnel POST that `handleIncomingMessages` issues for a matched
message: body `json.Marshal(payload["payload"])` sent to `s.tunnelAPI`.
(On a malformed message this is never reached; the value is irrelevant.) -/
def postFor (tunnelAPI : String) : MsgData → TunnelPost
  | .malformed => { url := tunnelAPI, body := "null" }
  | .decoded payload => { url := tunnelAPI, body := serialize (goIndex payload "payload") }

/-- The inbound loop `handleIncomingMessages` over the finite stream of
messages delivered before `s.subscribed.Next` returns an error, yielding the
tunnel POSTs it issues, in order.  Per message: on `json.Unmarshal` failure
log and `continue`; if `payload["to"] != s.did` `continue`; otherwise
`json.Marshal(payload["payload"])` (which cannot fail on a value produced by
`json.Unmarshal`) and POST it to `s.tunnelAPI`.  When `Next` errors the loop
returns. -/
def handleIncomingMessages (did tunnelAPI : String) : List MsgData → List TunnelPost
  | [] => []
  | .malformed :: rest => handleIncomingMessages did tunnelAPI rest
  | .decoded payload :: rest =>
    if (goIndex payload "to").eqStr did then
      { url := tunnelAPI, body := serialize (goIndex payload "payload") } ::
        handleIncomingMessages did tunnelAPI rest
    else
      handleIncomingMessages did tunnelAPI rest

/-- The inbound loop with the outcome of each tunnel POST made explicit:
`netOk k` tells whether the `k`-th POST succeeds.  The code only logs a
`http.Post` error (`log.Printf("Forward error: ...")`) and loops, so the
outcome never enters the control flow. -/
def runInboundLoop (did tunnelAPI : String) (netOk : Nat → Bool) :
    List MsgData → Nat → List TunnelPost
  | [], _ => []
  | .malformed :: rest, k => runInboundLoop did tunnelAPI netOk rest k
  | .decoded payload :: rest, k =>
    if (goIndex payload "to").eqStr did then
      { url := tunnelAPI, body := serialize (goIndex payload "payload") } ::
        runInboundLoop did tunnelAPI netOk rest (k + 1)
    else
      runInboundLoop did tunnelAPI netOk rest k

/-! ## Outbound path (`SendHandler`, `HandleOutgoingMessage`) -/

/-- The envelope `SendHandler` builds from a decoded request body:
`map[string]interface{}{"to": tunnelMsg["to"], "payload": tunnelMsg}`. -/
def mkOutgoingMsg (tunnelMsg : List (String × Json)) : Json :=
  Json.obj [("to", goIndex tunnelMsg "to"), ("payload", Json.obj tunnelMsg)]

/-- `HandleOutgoingMessage`: marshal the message and publish the bytes to the
topic (`json.Marshal` cannot fail on a value built from decoded JSON, and a
`Publish` error is only logged). -/
def HandleOutgoingMessage (msg : Json) : String :=
  serialize msg

/-- The outcome of one `POST /libp2p/send` request: HTTP status, response
body, and the bytes handed to `topic.Publish` (if any). -/
structure SendResponse where
  status : Nat
  body : String
  published : Option String
deriving DecidableEq

/-- `SendHandler`: decode the request body into `map[string]interface{}`
(`decodedBody` is the decoder's result, `none` on failure); on failure reply
`400 "Invalid JSON"`; otherwise build the envelope, publish it via
`HandleOutgoingMessage` — whose success `publishOk` is ignored — and reply
`200` with `{"status":"ok"}` (the encoder appends a newline). -/
def SendHandler (decodedBody : Option (List (String × Json))) (publishOk : Bool) :
    SendResponse :=
  match decodedBody with
  | none => { status := 400, body := "Invalid JSON\n", published := none }
  | some tunnelMsg =>
    { status := 200
      body := serialize (Json.obj [("status", Json.str "ok")]) ++ "\n"
      published := some (HandleOutgoingMessage (mkOutgoingMsg tunnelMsg)) }

/-! ## Identity derivation (`ToSightDID`, libp2p_utils.go) -/

/-- The base58 alphabet used by `mr-tron/base58` (Bitcoin alphabet). -/
def base58Alphabet : List Char :=
  "123456789ABCDEFGHJKLMNPQRSTUVWXYZabcdefghijkmnopqrstuvwxyz".toList

/-- The base58 digit for a value below 58. -/
def base58Digit (n : Nat) : Char :=
  base58Alphabet.getD n '1'

/-- Big-endian interpretation of a byte sequence as a natural number. -/
def bytesToNat (bs : List Nat) : Nat :=
  bs.foldl (fun acc b => acc * 256 + b) 0

/-- Base58 digits of `n` (most significant first), accumulated in `acc`. -/
def natToBase58 (n : Nat) (acc : List Char) : List Char :=
  if h : n = 0 then acc
  else natToBase58 (n / 58) (base58Digit (n % 58) :: acc)
termination_by n
decreasing_by exact Nat.div_lt_self (Nat.pos_of_ne_zero h) (by norm_num)

/-- Number of leading zero bytes, each encoded as the digit for 0. -/
def countLeadingZeros : List Nat → Nat
  | [] => 0
  | b :: rest => if b = 0 then countLeadingZeros rest + 1 else 0

/-- `base58.Encode`: one alphabet-first digit per leading zero byte, then the
base58 digits of the remaining big-endian value. -/
def base58Encode (bs : List Nat) : String :=
  String.mk (List.replicate (countLeadingZeros bs) '1' ++ natToBase58 (bytesToNat bs) [])

/-- `ToSightDID`: prepend the two multicodec bytes `0xed 0x01` (Ed25519) to
the raw public key, base58-encode, and prefix the DID namespace. -/
def ToSightDID (publicKey : List Nat) : String :=
  "did:sight:hoster:" ++ base58Encode (0xed :: 0x01 :: publicKey)

/-! ## Keypair persistence (`LoadOrGenerateKeypair`, libp2p_utils.go) -/

/-- The persisted keypair: seed (private key material), creation and
last-used RFC3339 timestamps, and the raw public key bytes. -/
structure Keypair where
  seed : List Nat
  createdAt : String
  lastUsed : String
  publicKey : List Nat
deriving DecidableEq

/-- The state of the keypair file `device-keypair.json`: absent, present but
failing `json.Unmarshal`, or present and deserializing to `kp` (the JSON
codec on well-formed files is modeled as exact, a property of the
`encoding/json` collaborator). -/
inductive KeyFileState where
  | absent : KeyFileState
  | corrupt : KeyFileState
  | stored : Keypair → KeyFileState
deriving DecidableEq

/-- Lexicographic order on character lists, used to compare RFC3339
timestamps (for fixed-format UTC timestamps it coincides with chronological
order). -/
def charListLe : List Char → List Char → Bool
  | [], _ => true
  | _ :: _, [] => false
  | a :: as, b :: bs => if a < b then true else if b < a then false else charListLe as bs

/-- Chronological comparison of two RFC3339 timestamp strings. -/
def timestampLe (a b : String) : Bool :=
  charListLe a.toList b.toList

/-- The outcome of `LoadOrGenerateKeypair`: the returned keypair (`none`
models `log.Fatal`, which aborts the process before returning) and the
keypair file's state after the call. -/
structure LoadOutcome where
  result : Option Keypair
  file : KeyFileState
deriving DecidableEq

/-- `LoadOrGenerateKeypair` at current time `now`, where `freshSeed` and
`freshPub` are the key material `crypto.GenerateKeyPair` would produce on
the generation path.  If the file exists and deserializes, refresh
`lastUsed` to `now`, rewrite the file, and return the refreshed keypair; if
it exists but does not deserialize, `log.Fatal` (no keypair is generated and
the file is left as it is); if it is absent, generate a fresh keypair with
`createdAt = lastUsed = now` and persist it. -/
def LoadOrGenerateKeypair (file : KeyFileState) (now : String)
    (freshSeed freshPub : List Nat) : LoadOutcome :=
  match file with
  | .corrupt => { result := none, file := .corrupt }
  | .stored kp =>
    let updated := { kp with lastUsed := now }
    { result := some updated, file := .stored updated }
  | .absent =>
    let kp : Keypair :=
      { seed := freshSeed, createdAt := now, lastUsed := now, publicKey := freshPub }
    { result := some kp, file := .stored kp }

/-! ## Node service state (`Libp2pNodeService`, `NewLibp2pNodeService`,
`CreateLibp2pNode`, `InitNode`, `Stop`) -/

/-- The service struct: identity, keypair and configuration set at
construction, plus the overlay resources (`node`, `topic`, `subscribed`)
acquired by `InitNode`, modeled by whether each is live. -/
structure Libp2pNodeService where
  did : String
  keypair : Keypair
  tunnelAPI : String
  isGateway : Bool
  nodeUp : Bool
  topicJoined : Bool
  subscribed : Bool
  bootstrap : List String
  nodePort : Nat
deriving DecidableEq

/-- `NewLibp2pNodeService`: `did := "gateway"; if !isGateway { did =
ToSightDID(kp.PublicKey) }`, then store the keypair and configuration; no
overlay resources exist yet. -/
def NewLibp2pNodeService (kp : Keypair) (port : Nat) (tunnelAPI : String)
    (isGateway : Bool) (bootstrap : List String) : Libp2pNodeService :=
  { did := if isGateway then "gateway" else ToSightDID kp.publicKey
    keypair := kp
    tunnelAPI := tunnelAPI
    isGateway := isGateway
    nodeUp := false
    topicJoined := false
    subscribed := false
    bootstrap := bootstrap
    nodePort := port }

/-- The overlay collaborator's behavior during startup, abstracted: how a
bootstrap address string parses (`peer.AddrInfoFromString`), whether a
connect attempt to a parsed peer succeeds (`host.Connect`), and whether host
creation, pubsub creation, topic join and subscribe succeed. -/
structure OverlayEnv (α : Type) where
  parseAddr : String → Option α
  connectOk : α → Bool
  hostOk : Bool
  pubsubOk : Bool
  joinOk : Bool
  subscribeOk : Bool

/-- The first bootstrap loop of `CreateLibp2pNode`: parse each configured
address; on failure log `"Invalid bootstrap addr"` and `continue`; collect
the parsed peers in order. -/
def collectPeerAddrs (parseAddr : String → Option α) : List String → List α
  | [] => []
  | addr :: rest =>
    match parseAddr addr with
    | none => collectPeerAddrs parseAddr rest
    | some info => info :: collectPeerAddrs parseAddr rest

/-- The second bootstrap loop of `CreateLibp2pNode`: one `host.Connect`
attempt per parsed peer, in order; the outcome is only logged. -/
def connectAll (connectOk : α → Bool) : List α → List Bool
  | [] => []
  | info :: rest => connectOk info :: connectAll connectOk rest

/-- What `CreateLibp2pNode` did about bootstrap peers: the peers it
attempted to connect to (exactly the successfully parsed ones, in order) and
each attempt's outcome. -/
structure CreateNodeResult (α : Type) where
  connectAttempts : List α
  connectResults : List Bool

/-- `CreateLibp2pNode`: generate an ephemeral host key, create the host
(`log.Fatal` on failure), create gossipsub (`log.Fatal` on failure), then —
when the bootstrap list is nonempty — run the two bootstrap loops, whose
per-peer failures are logged and skipped; return the host and pubsub service
(`none` models the fatal aborts). -/
def CreateLibp2pNode (env : OverlayEnv α) (port : Nat) (bootstrapList : List String) :
    Option (CreateNodeResult α) :=
  if env.hostOk then
    if env.pubsubOk then
      let peerAddrs :=
        if bootstrapList.length > 0 then collectPeerAddrs env.parseAddr bootstrapList else []
      some { connectAttempts := peerAddrs, connectResults := connectAll env.connectOk peerAddrs }
    else none
  else none

/-- `InitNode`: create the node and pubsub via `CreateLibp2pNode`, join the
topic `"sight-message"` (`log.Fatal` on failure), subscribe (`log.Fatal` on
failure), and start the inbound loop; `none` models the fatal aborts. -/
def InitNode (env : OverlayEnv α) (s : Libp2pNodeService) :
    Option (Libp2pNodeService × CreateNodeResult α) :=
  match CreateLibp2pNode env s.nodePort s.bootstrap with
  | none => none
  | some created =>
    if env.joinOk then
      if env.subscribeOk then
        some ({ s with nodeUp := true, topicJoined := true, subscribed := true }, created)
      else none
    else none

/-- `Stop`: close the libp2p host; nothing else in the service changes. -/
def Stop (s : Libp2pNodeService) : Libp2pNodeService :=
  { s with nodeUp := false }

/-! ## Theorems: inbound loop -/

/-- The inbound loop is the filter of the stream by destination identity
followed by the per-message forward. -/
theorem handleIncoming_eq_filter_map (did tunnelAPI : String) (msgs : List MsgData) :
    handleIncomingMessages did tunnelAPI msgs =
      (msgs.filter (isAddressedTo did)).map (postFor tunnelAPI) := by
  induction msgs with
  | nil => rfl
  | cons m rest ih =>
    cases m with
    | malformed => simpa [handleIncomingMessages, isAddressedTo] using ih
    | decoded payload =>
      by_cases h : (goIndex payload "to").eqStr did = true
      · simp [handleIncomingMessages, isAddressedTo, h, postFor, ih]
      · simp [handleIncomingMessages, isAddressedTo, h, ih]

/-- The inbound loop distributes over concatenation of the stream. -/
theorem handleIncoming_append (did tunnelAPI : String) (msgs₁ msgs₂ : List MsgData) :
    handleIncomingMessages did tunnelAPI (msgs₁ ++ msgs₂) =
      handleIncomingMessages did tunnelAPI msgs₁ ++ handleIncomingMessages did tunnelAPI msgs₂ := by
  induction msgs₁ with
  | nil => rfl
  | cons m rest ih =>
    cases m with
    | malformed => simpa [handleIncomingMessages] using ih
    | decoded payload =>
      by_cases h : (goIndex payload "to").eqStr did = true
      · simp [handleIncomingMessages, h, ih]
      · simp [handleIncomingMessages, h, ih]

/-- The POSTs the loop issues do not depend on whether any tunnel forward
succeeds. -/
theorem runInboundLoop_eq_handleIncoming (did tunnelAPI : String) (netOk : Nat → Bool)
    (msgs : List MsgData) : ∀ k, runInboundLoop did tunnelAPI netOk msgs k =
      handleIncomingMessages did tunnelAPI msgs := by
  induction msgs with
  | nil => intro k; rfl
  | cons m rest ih =>
    intro k
    cases m with
    | malformed => simpa [runInboundLoop, handleIncomingMessages] using ih k
    | decoded payload =>
      by_cases h : (goIndex payload "to").eqStr did = true
      · simp [runInboundLoop, handleIncomingMessages, h, ih]
      · simp [runInboundLoop, handleIncomingMessages, h, ih]

/-- C1: for every finite stream of inbound messages, of which M decode to
envelopes addressed exactly to this node's identity, the inbound loop issues
exactly M POSTs, to the configured tunnel URL, in the order the messages
were received; the other messages produce no tunnel call. -/
theorem inbound_filtering (did tunnelAPI : String) (msgs : List MsgData) :
    handleIncomingMessages did tunnelAPI msgs =
      (msgs.filter (isAddressedTo did)).map (postFor tunnelAPI) ∧
    (handleIncomingMessages did tunnelAPI msgs).length =
      msgs.countP (isAddressedTo did) ∧
    ∀ p ∈ handleIncomingMessages did tunnelAPI msgs, p.url = tunnelAPI := by
  refine ⟨handleIncoming_eq_filter_map did tunnelAPI msgs, ?_, ?_⟩
  · rw [handleIncoming_eq_filter_map, List.length_map, ← List.countP_eq_length_filter]
  · intro p hp
    rw [handleIncoming_eq_filter_map] at hp
    obtain ⟨m, _, rfl⟩ := List.mem_map.mp hp
    cases m <;> rfl

/-- C7: the inbound loop never terminates because of a malformed message, a
non-matching address, or a failed tunnel forward — any prefix of such
per-message failures leaves the processing of the rest of the stream
unchanged, and the forward outcomes do not enter the control flow at all;
the loop exits exactly when pulling the next message errors (the end of the
delivered stream), producing no further POSTs. -/
theorem inbound_loop_resilience (did tunnelAPI : String) :
    (∀ netOk : Nat → Bool, ∀ msgs k, runInboundLoop did tunnelAPI netOk msgs k =
      handleIncomingMessages did tunnelAPI msgs) ∧
    (∀ msgs₁ msgs₂, handleIncomingMessages did tunnelAPI (msgs₁ ++ msgs₂) =
      handleIncomingMessages did tunnelAPI msgs₁ ++ handleIncomingMessages did tunnelAPI msgs₂) ∧
    (∀ netOk : Nat → Bool, ∀ k, runInboundLoop did tunnelAPI netOk [] k = []) :=
  ⟨fun netOk msgs k => runInboundLoop_eq_handleIncoming did tunnelAPI netOk msgs k,
   fun msgs₁ msgs₂ => handleIncoming_append did tunnelAPI msgs₁ msgs₂,
   fun _ _ => rfl⟩

/-- C10: an inbound message that decodes to an object addressed to this node
but lacking a `payload` key is not skipped — it still produces a tunnel POST,
whose body is the JSON literal `null`. -/
theorem missing_payload_forwards_null (did tunnelAPI : String)
    (payload : List (String × Json)) (rest : List MsgData)
    (hto : lookupJson payload "to" = some (Json.str did))
    (hpl : lookupJson payload "payload" = none) :
    handleIncomingMessages did tunnelAPI (MsgData.decoded payload :: rest) =
      { url := tunnelAPI, body := "null" } :: handleIncomingMessages did tunnelAPI rest := by
  simp [handleIncomingMessages, goIndex, hto, hpl, Json.eqStr, serialize]

/-- A concrete run of `missing_payload_forwards_null`: identity `"x"`, one
decoded message `{"to":"x"}` with no `payload` key. -/
theorem missing_payload_forwards_null_witness :
    handleIncomingMessages "x" "http://tunnel" [MsgData.decoded [("to", Json.str "x")]] =
      [{ url := "http://tunnel", body := "null" }] :=
  missing_payload_forwards_null "x" "http://tunnel" [("to", Json.str "x")] [] rfl rfl

/-! ## Theorems: outbound path and control surface -/

/-- C2: for every decoded local request, the bytes handed to the topic
publish are the serialization of an envelope whose `to` field is the
request's `to` field and whose `payload` field is the entire request
object. -/
theorem outbound_envelope_shape (tunnelMsg : List (String × Json)) (v : Json)
    (publishOk : Bool) (hto : lookupJson tunnelMsg "to" = some v) :
    (SendHandler (some tunnelMsg) publishOk).published =
      some (serialize (Json.obj [("to", v), ("payload", Json.obj tunnelMsg)])) := by
  simp [SendHandler, HandleOutgoingMessage, mkOutgoingMsg, goIndex, hto]

/-- A concrete run of `outbound_envelope_shape` on the request
`{"to":"did:sight:hoster:abc","foo":1}`: the published bytes are the
serialization of the envelope carrying the whole request as payload. -/
theorem outbound_envelope_shape_witness :
    (SendHandler (some [("to", Json.str "did:sight:hoster:abc"), ("foo", Json.num 1)])
        true).published =
      some (serialize (Json.obj [("to", Json.str "did:sight:hoster:abc"),
        ("payload", Json.obj [("to", Json.str "did:sight:hoster:abc"),
          ("foo", Json.num 1)])])) :=
  outbound_envelope_shape [("to", Json.str "did:sight:hoster:abc"), ("foo", Json.num 1)]
    (Json.str "did:sight:hoster:abc") true rfl

/-- C3: a send request whose body does not decode gets status 400; one whose
body decodes gets status 200 with body `{"status":"ok"}` (plus the encoder's
newline); and the whole response is independent of whether the subsequent
publish succeeds. -/
theorem send_endpoint_contract (b : Option (List (String × Json)))
    (publishOk publishOk' : Bool) :
    SendHandler b publishOk = SendHandler b publishOk' ∧
    (b = none → (SendHandler b publishOk).status = 400) ∧
    (∀ m, b = some m → (SendHandler b publishOk).status = 200 ∧
      (SendHandler b publishOk).body = "\x7b\"status\":\"ok\"\x7d\n") := by
  refine ⟨by cases b <;> rfl, ?_, ?_⟩
  · intro h; subst h; rfl
  · intro m h; subst h; exact ⟨rfl, rfl⟩

/-- Concrete runs of `send_endpoint_contract`: a non-decodable body gets 400;
the body `{"to":"x"}` gets 200 and `{"status":"ok"}`, with the same response
whether the publish succeeds or fails. -/
theorem send_endpoint_contract_witness :
    (SendHandler none true).status = 400 ∧
    (SendHandler (some [("to", Json.str "x")]) false).status = 200 ∧
    (SendHandler (some [("to", Json.str "x")]) false).body = "\x7b\"status\":\"ok\"\x7d\n" ∧
    SendHandler (some [("to", Json.str "x")]) false = SendHandler (some [("to", Json.str "x")]) true :=
  ⟨(send_endpoint_contract none true true).2.1 rfl,
   ((send_endpoint_contract (some [("to", Json.str "x")]) false false).2.2
     [("to", Json.str "x")] rfl).1,
   ((send_endpoint_contract (some [("to", Json.str "x")]) false false).2.2
     [("to", Json.str "x")] rfl).2,
   (send_endpoint_contract (some [("to", Json.str "x")]) false true).1⟩

/-! ## Theorems: identity derivation -/

/-- C4: the identity set at service construction is a pure function of its
inputs: with the gateway flag it is the literal `"gateway"` whatever the
key; without it, it is the namespace prefix `"did:sight:hoster:"` followed
by the base58 encoding of the multicodec bytes `0xed 0x01` concatenated with
the raw public key bytes. -/
theorem identity_derivation_pure (kp : Keypair) (port : Nat) (tunnelAPI : String)
    (bootstrap : List String) :
    (NewLibp2pNodeService kp port tunnelAPI true bootstrap).did = "gateway" ∧
    (NewLibp2pNodeService kp port tunnelAPI false bootstrap).did =
      "did:sight:hoster:" ++ base58Encode (0xed :: 0x01 :: kp.publicKey) :=
  ⟨rfl, rfl⟩

/-! ## Theorems: keypair persistence -/

/-- C5: loading the keypair file previously saved for `kp` returns a keypair
equal to `kp` in seed, createdAt and publicKey, with `lastUsed` refreshed to
the current time — at or after the original under the clock hypothesis —
and the file is rewritten with the refreshed keypair as part of the load. -/
theorem keypair_roundtrip (kp : Keypair) (now : String) (freshSeed freshPub : List Nat)
    (hclock : timestampLe kp.lastUsed now = true) :
    ∃ kp', LoadOrGenerateKeypair (KeyFileState.stored kp) now freshSeed freshPub =
        { result := some kp', file := KeyFileState.stored kp' } ∧
      kp'.seed = kp.seed ∧ kp'.createdAt = kp.createdAt ∧
      kp'.publicKey = kp.publicKey ∧ kp'.lastUsed = now ∧
      timestampLe kp.lastUsed kp'.lastUsed = true :=
  ⟨{ kp with lastUsed := now }, rfl, rfl, rfl, rfl, rfl, hclock⟩

/-- A concrete run of `keypair_roundtrip` on a stored keypair whose
`lastUsed` precedes the current time. -/
theorem keypair_roundtrip_witness :
    ∃ kp', LoadOrGenerateKeypair
        (KeyFileState.stored
          { seed := [7], createdAt := "2023-12-01T00:00:00Z",
            lastUsed := "2024-01-01T00:00:00Z", publicKey := [9] })
        "2024-06-01T00:00:00Z" [] [] =
        { result := some kp', file := KeyFileState.stored kp' } ∧
      kp'.seed = [7] ∧ kp'.createdAt = "2023-12-01T00:00:00Z" ∧
      kp'.publicKey = [9] ∧ kp'.lastUsed = "2024-06-01T00:00:00Z" ∧
      timestampLe "2024-01-01T00:00:00Z" kp'.lastUsed = true :=
  keypair_roundtrip
    { seed := [7], createdAt := "2023-12-01T00:00:00Z",
      lastUsed := "2024-01-01T00:00:00Z", publicKey := [9] }
    "2024-06-01T00:00:00Z" [] [] (by decide)

/-- C6: when the keypair file exists but does not deserialize, startup
aborts fatally (no keypair is returned) and no fresh keypair is generated or
written in its place — the file keeps its corrupt contents. -/
theorem corrupt_keyfile_fatal (now : String) (freshSeed freshPub : List Nat) :
    LoadOrGenerateKeypair KeyFileState.corrupt now freshSeed freshPub =
      { result := none, file := KeyFileState.corrupt } :=
  rfl

/-! ## Theorems: bootstrap and the service invariant -/

/-- The first bootstrap loop keeps exactly the addresses that parse,
in order. -/
theorem collectPeerAddrs_eq_filterMap {α : Type} (parseAddr : String → Option α)
    (l : List String) : collectPeerAddrs parseAddr l = l.filterMap parseAddr := by
  induction l with
  | nil => rfl
  | cons a rest ih => cases h : parseAddr a <;> simp [collectPeerAddrs, h, ih]

/-- The second bootstrap loop makes one attempt per parsed peer, in order. -/
theorem connectAll_eq_map {α : Type} (connectOk : α → Bool) (l : List α) :
    connectAll connectOk l = l.map connectOk := by
  induction l with
  | nil => rfl
  | cons a rest ih => simp [connectAll, ih]

/-- C8: each bootstrap address is parsed independently and a parse failure
only skips that peer; each parsed peer gets exactly one connect attempt, in
order, and a connect failure only moves on; whatever the parse and connect
outcomes, node creation returns the host and pubsub service and `InitNode`
completes with the topic subscription active. -/
theorem bootstrap_partial_tolerance {α : Type} (env : OverlayEnv α)
    (s : Libp2pNodeService) (hhost : env.hostOk = true) (hps : env.pubsubOk = true)
    (hjoin : env.joinOk = true) (hsub : env.subscribeOk = true) :
    ∃ s' created, InitNode env s = some (s', created) ∧
      s'.subscribed = true ∧
      created.connectAttempts = s.bootstrap.filterMap env.parseAddr ∧
      created.connectResults = (s.bootstrap.filterMap env.parseAddr).map env.connectOk := by
  refine ⟨{ s with nodeUp := true, topicJoined := true, subscribed := true },
    { connectAttempts := s.bootstrap.filterMap env.parseAddr
      connectResults := (s.bootstrap.filterMap env.parseAddr).map env.connectOk },
    ?_, rfl, rfl, rfl⟩
  cases hbs : s.bootstrap with
  | nil => simp [InitNode, CreateLibp2pNode, connectAll, hhost, hps, hjoin, hsub, hbs]
  | cons a rest =>
    simp [InitNode, CreateLibp2pNode, hhost, hps, hjoin, hsub, hbs,
      collectPeerAddrs_eq_filterMap, connectAll_eq_map]

/-- A concrete run of `bootstrap_partial_tolerance` with three configured
peers of which one is malformed (does not parse) and one refuses the
connection: startup still completes with the subscription active, the two
parsed peers each get one connect attempt, and the refusing peer's failure
is only recorded. -/
theorem bootstrap_partial_tolerance_witness :
    ∃ s' created,
      InitNode
        { parseAddr := fun a => if a = "malformed" then none else some a,
          connectOk := fun a => !(a == "refuser"),
          hostOk := true, pubsubOk := true, joinOk := true, subscribeOk := true }
        (NewLibp2pNodeService
          { seed := [1], createdAt := "t0", lastUsed := "t0", publicKey := [2] }
          15050 "http://tunnel" false ["good", "malformed", "refuser"]) =
        some (s', created) ∧
      s'.subscribed = true ∧
      created.connectAttempts =
        (["good", "malformed", "refuser"].filterMap
          (fun a => if a = "malformed" then none else some a)) ∧
      created.connectResults =
        ((["good", "malformed", "refuser"].filterMap
          (fun a => if a = "malformed" then none else some a)).map
            (fun a => !(a == "refuser"))) :=
  bootstrap_partial_tolerance
    { parseAddr := fun a => if a = "malformed" then none else some a,
      connectOk := fun a => !(a == "refuser"),
      hostOk := true, pubsubOk := true, joinOk := true, subscribeOk := true }
    (NewLibp2pNodeService
      { seed := [1], createdAt := "t0", lastUsed := "t0", publicKey := [2] }
      15050 "http://tunnel" false ["good", "malformed", "refuser"])
    rfl rfl rfl rfl

/-- `InitNode` only acquires overlay resources: it changes neither the
identity nor the keypair of the service. -/
theorem initNode_preserves_identity {α : Type} (env : OverlayEnv α)
    (s s' : Libp2pNodeService) (created : CreateNodeResult α)
    (h : InitNode env s = some (s', created)) :
    s'.did = s.did ∧ s'.keypair = s.keypair := by
  unfold InitNode at h
  cases hc : CreateLibp2pNode env s.nodePort s.bootstrap with
  | none => rw [hc] at h; cases h
  | some c =>
    rw [hc] at h
    by_cases hj : env.joinOk = true
    · by_cases hs : env.subscribeOk = true
      · simp only [hj, hs, if_true, Option.some.injEq, Prod.mk.injEq] at h
        obtain ⟨h1, -⟩ := h
        subst h1
        exact ⟨rfl, rfl⟩
      · simp [hj, hs] at h
    · simp [hj] at h

/-- C9: the service holds exactly the keypair it was constructed with, and
its identity is the pure function of that keypair's public key (and the
gateway flag) fixed at construction; neither `InitNode` nor `Stop` — the
only operations that touch the service state — mutates either field. -/
theorem identity_invariant {α : Type} (kp : Keypair) (port : Nat) (tunnelAPI : String)
    (isGateway : Bool) (bootstrap : List String) (env : OverlayEnv α)
    (s' : Libp2pNodeService) (created : CreateNodeResult α)
    (h : InitNode env (NewLibp2pNodeService kp port tunnelAPI isGateway bootstrap) =
      some (s', created)) :
    (NewLibp2pNodeService kp port tunnelAPI isGateway bootstrap).keypair = kp ∧
    (NewLibp2pNodeService kp port tunnelAPI isGateway bootstrap).did =
      (if isGateway then "gateway" else ToSightDID kp.publicKey) ∧
    s'.did = (if isGateway then "gateway" else ToSightDID kp.publicKey) ∧
    s'.keypair = kp ∧
    (Stop s').did = s'.did ∧ (Stop s').keypair = s'.keypair := by
  obtain ⟨hdid, hkp⟩ := initNode_preserves_identity env _ s' created h
  exact ⟨rfl, rfl, hdid, hkp, rfl, rfl⟩

/-- A concrete run of `identity_invariant`: a non-gateway service with no
bootstrap peers, started against an overlay where every step succeeds. -/
theorem identity_invariant_witness :
    (NewLibp2pNodeService
        { seed := [1], createdAt := "t0", lastUsed := "t0", publicKey := [1, 2, 3] }
        15050 "http://tunnel" false []).keypair =
      { seed := [1], createdAt := "t0", lastUsed := "t0", publicKey := [1, 2, 3] } ∧
    (NewLibp2pNodeService
        { seed := [1], createdAt := "t0", lastUsed := "t0", publicKey := [1, 2, 3] }
        15050 "http://tunnel" false []).did =
      (if false then "gateway" else ToSightDID [1, 2, 3]) ∧
    ({ NewLibp2pNodeService
        { seed := [1], createdAt := "t0", lastUsed := "t0", publicKey := [1, 2, 3] }
        15050 "http://tunnel" false [] with
        nodeUp := true, topicJoined := true, subscribed := true } : Libp2pNodeService).did =
      (if false then "gateway" else ToSightDID [1, 2, 3]) ∧
    ({ NewLibp2pNodeService
        { seed := [1], createdAt := "t0", lastUsed := "t0", publicKey := [1, 2, 3] }
        15050 "http://tunnel" false [] with
        nodeUp := true, topicJoined := true, subscribed := true } : Libp2pNodeService).keypair =
      { seed := [1], createdAt := "t0", lastUsed := "t0", publicKey := [1, 2, 3] } ∧
    (Stop { NewLibp2pNodeService
        { seed := [1], createdAt := "t0", lastUsed := "t0", publicKey := [1, 2, 3] }
        15050 "http://tunnel" false [] with
        nodeUp := true, topicJoined := true, subscribed := true }).did =
      ({ NewLibp2pNodeService
        { seed := [1], createdAt := "t0", lastUsed := "t0", publicKey := [1, 2, 3] }
        15050 "http://tunnel" false [] with
        nodeUp := true, topicJoined := true, subscribed := true } : Libp2pNodeService).did ∧
    (Stop { NewLibp2pNodeService
        { seed := [1], createdAt := "t0", lastUsed := "t0", publicKey := [1, 2, 3] }
        15050 "http://tunnel" false [] with
        nodeUp := true, topicJoined := true, subscribed := true }).keypair =
      ({ NewLibp2pNodeService
        { seed := [1], createdAt := "t0", lastUsed := "t0", publicKey := [1, 2, 3] }
        15050 "http://tunnel" false [] with
        nodeUp := true, topicJoined := true, subscribed := true } : Libp2pNodeService).keypair :=
  identity_invariant
    { seed := [1], createdAt := "t0", lastUsed := "t0", publicKey := [1, 2, 3] }
    15050 "http://tunnel" false []
    { parseAddr := fun _ => (none : Option Nat), connectOk := fun _ => true,
      hostOk := true, pubsubOk := true, joinOk := true, subscribeOk := true }
    _ { connectAttempts := [], connectResults := [] } rfl

end Relay
